import Mathlib

/-!
Verification of the `jina.types.ndarray` encode/decode engine
(`src/jina/types/ndarray/__init__.py`), shallowly embedded in Lean 4.

Modelling conventions:
* a numpy dtype is carried as its `.str` descriptor together with its
  element byte width (`itemsize`); the source only ever uses the string
  for storage/equality and the width for `frombuffer`/`tobytes`;
* a numpy ndarray is its dtype, its shape and its row-major (C-order)
  raw byte buffer, a byte being a `Nat`;
* integer buffers are little-endian, matching `tobytes` of `<iN`/`<uN`
  numpy arrays for non-negative values (all inputs used here);
* Python functions that can raise are embedded in `Except String`; a
  Python function that falls off the end returns the explicit
  `GetResult.pyNone` value.
-/

namespace JinaNd

/-- A numpy dtype: the `.str` descriptor plus the element byte width. -/
structure Dtype where
  str : String
  itemsize : Nat
deriving DecidableEq, Repr

/-- The numpy default dtype `float64`, produced by `np.zeros`. -/
def float64 : Dtype := ⟨"<f8", 8⟩

/-- Product of a shape, i.e. the element count of an ndarray. -/
def listProd (l : List Nat) : Nat := l.foldr (fun a b => a * b) 1

/-- A dense numpy ndarray: dtype, shape, and row-major raw bytes. -/
structure NpArray where
  dtype : Dtype
  shape : List Nat
  buffer : List Nat
deriving DecidableEq, Repr

/-- Well-formedness of a real numpy array: positive element width and a
buffer holding exactly `itemsize * prod shape` bytes. -/
def NpArray.wf (a : NpArray) : Prop :=
  0 < a.dtype.itemsize ∧ a.buffer.length = a.dtype.itemsize * listProd a.shape

/-- The proto sub-message `{buffer, shape, dtype}` (`dense`, or the
`indices`/`values` fields of `sparse`). -/
structure ElementBuffer where
  buffer : List Nat
  shape : List Nat
  dtype : Dtype
deriving DecidableEq, Repr

/-- Default (unset) `ElementBuffer` proto message. -/
def emptyEB : ElementBuffer := ⟨[], [], ⟨"", 0⟩⟩

/-- The proto sub-message `sparse: {indices, values, shape}`. -/
structure SparseValue where
  indices : ElementBuffer
  values : ElementBuffer
  shape : List Nat
deriving DecidableEq, Repr

/-- Default (unset) `SparseValue` proto message. -/
def emptySparse : SparseValue := ⟨emptyEB, emptyEB, []⟩

/-- The `oneof content` arm of `NdArrayProto`. -/
inductive NdContent
  | unset
  | dense (d : ElementBuffer)
  | sparse (s : SparseValue)
deriving DecidableEq, Repr

/-- The `NdArrayProto` protobuf message: class name, string parameters
map, and the `oneof content` union. -/
structure NdArrayProto where
  cls_name : String
  parameters : List (String × String)
  content : NdContent
deriving DecidableEq, Repr

/-- A freshly constructed (all defaults) `NdArrayProto`. -/
def emptyProto : NdArrayProto := ⟨"", [], .unset⟩

/-- Reading `proto.dense`: the dense arm, or the default message when
another arm is set (protobuf read-of-unset-oneof semantics). -/
def NdArrayProto.denseArm (r : NdArrayProto) : ElementBuffer :=
  match r.content with
  | .dense d => d
  | _ => emptyEB

/-- Reading `proto.sparse`: the sparse arm, or the default message. -/
def NdArrayProto.sparseArm (r : NdArrayProto) : SparseValue :=
  match r.content with
  | .sparse s => s
  | _ => emptySparse

/-- `NdArray.is_sparse`: `WhichOneof('content') == 'sparse'`. -/
def NdArrayProto.isSparse (r : NdArrayProto) : Bool :=
  match r.content with
  | .sparse _ => true
  | _ => false

/-- Protobuf string-map read `parameters[k]`: default `""` when absent. -/
def lookupParam (ps : List (String × String)) (k : String) : String :=
  match ps.find? (fun p => p.1 == k) with
  | some p => p.2
  | none => ""

/-- Protobuf string-map write `parameters[k] = v`. -/
def setParam (ps : List (String × String)) (k v : String) : List (String × String) :=
  (k, v) :: ps.filter (fun p => p.1 != k)

/-- Little-endian encoding of a non-negative integer into `w` bytes,
matching `numpy.tobytes` for `<iN`/`<uN` dtypes on such values. -/
def natToBytes : Nat → Nat → List Nat
  | 0, _ => []
  | w + 1, v => (v % 256) :: natToBytes w (v / 256)

/-- Little-endian decoding of a byte list into a non-negative integer. -/
def bytesToNatLE (bs : List Nat) : Nat :=
  bs.foldr (fun b acc => b + 256 * acc) 0

/-- Fuel-driven worker for `chunks`: peels one `w`-byte chunk per fuel
step (the fuel is the byte count, enough since `w > 0`). -/
def chunksAux (w : Nat) : Nat → List Nat → List (List Nat)
  | 0, _ => []
  | _ + 1, [] => []
  | fuel + 1, b :: t => ((b :: t).take w) :: chunksAux w fuel ((b :: t).drop w)

/-- Split a byte list into consecutive `w`-byte chunks. -/
def chunks (w : Nat) (bs : List Nat) : List (List Nat) :=
  if w = 0 then [] else chunksAux w bs.length bs

/-- Interpret a byte buffer as consecutive `w`-byte little-endian
integers (the numeric content of an integer ndarray). -/
def bytesToNats (w : Nat) (bs : List Nat) : List Nat :=
  (chunks w bs).map bytesToNatLE

/-- `np.frombuffer(bs, dtype=d)`: a flat array reinterpreting the bytes;
raises when the buffer size is not a multiple of the element size. -/
def frombuffer (bs : List Nat) (d : Dtype) : Except String NpArray :=
  if d.itemsize = 0 then .error "frombuffer: data type not understood"
  else if bs.length % d.itemsize ≠ 0 then
    .error "frombuffer: buffer size must be a multiple of element size"
  else .ok ⟨d, [bs.length / d.itemsize], bs⟩

/-- `x.reshape(shape)` with a fully explicit target shape: the element
count must match exactly. -/
def reshapeTo (shape : List Nat) (a : NpArray) : Except String NpArray :=
  if listProd shape = listProd a.shape then .ok ⟨a.dtype, shape, a.buffer⟩
  else .error "reshape: cannot reshape array"

/-- `x.reshape([-1] + tail)`: the leading axis is inferred; raises when
the tail product is zero or does not divide the element count. -/
def reshapeNeg1 (tail : List Nat) (a : NpArray) : Except String NpArray :=
  let n := listProd a.shape
  let p := listProd tail
  if 0 < p ∧ p ∣ n then .ok ⟨a.dtype, (n / p) :: tail, a.buffer⟩
  else .error "reshape: cannot reshape array with inferred dimension"

/-- `np.zeros(shape)`: zero bytes, default dtype `float64`. -/
def npZeros (shape : List Nat) : NpArray :=
  ⟨float64, shape, List.replicate (listProd shape * 8) 0⟩

/-- `_get_dense_array(source)`: reinterpret + reshape a non-empty
buffer; an empty buffer with a non-empty shape yields `np.zeros(shape)`;
otherwise the function returns `None`. -/
def getDenseArray (source : ElementBuffer) : Except String (Option NpArray) :=
  if source.buffer ≠ [] then do
    let x ← frombuffer source.buffer source.dtype
    let y ← reshapeTo source.shape x
    .ok (some y)
  else if source.shape.length > 0 then .ok (some (npZeros source.shape))
  else .ok none

/-- `_set_dense_array(value, target)`: store `tobytes`, shape, and the
dtype descriptor string of `value` into the target `ElementBuffer`. -/
def setDenseArray (value : NpArray) : ElementBuffer :=
  ⟨value.buffer, value.shape, value.dtype⟩

/-- A scipy sparse matrix, carried as its coordinate triples (`rows`,
`cols`, `data`) plus the index dtype, the data dtype, the dense shape
and the storage-format tag returned by `getformat()`.  The compressed
formats (`csr`/`csc`/`bsr`) reorganize storage but hold the same entry
triples, so the model keeps the triples and tracks only the tag. -/
structure SciCoo where
  rows : List Nat
  cols : List Nat
  data : List Nat
  idtype : Dtype
  ddtype : Dtype
  shape : List Nat
  fmt : String
deriving DecidableEq, Repr

/-- `value.getformat()`. -/
def SciCoo.getformat (m : SciCoo) : String := m.fmt

/-- `value.tocoo(copy=True)`: the triples are already coordinate-form;
only the format tag changes. -/
def SciCoo.tocoo (m : SciCoo) : SciCoo := { m with fmt := "coo" }

/-- `x.tobsr()` / `x.tocsc()` / `x.tocsr()`: storage-order change only
in this model (the entry triples are preserved). -/
def SciCoo.toFormat (m : SciCoo) (f : String) : SciCoo := { m with fmt := f }

/-- Sum of the values among coordinate triples at entry `(r, c)` — the
entry an assembled scipy matrix exposes there (duplicates are summed,
exactly as `csr_matrix((data, (rows, cols)))` sums them). -/
def cooEntry (rows cols : List Nat) (vals : List Nat) (r c : Nat) : Nat :=
  ((rows.zip (cols.zip vals)).filter
      (fun t => t.1 == r && t.2.1 == c)).foldr (fun t acc => t.2.2 + acc) 0

/-- A `tensorflow.SparseTensor`: its `indices` and `values` component
arrays (as host numpy arrays) and its dense shape. -/
structure TfSparse where
  indices : NpArray
  values : NpArray
  shape : List Nat
deriving DecidableEq, Repr

/-- A coalesced torch sparse COO tensor: its `indices()` and `values()`
component arrays (as host numpy arrays) and its `size()`. -/
structure TorchSparse where
  indices : NpArray
  values : NpArray
  size : List Nat
deriving DecidableEq, Repr

/-- Elements of a list at even positions (stride 2 from index 0). -/
def evens {α : Type} : List α → List α
  | [] => []
  | [a] => [a]
  | a :: _ :: rest => a :: evens rest

/-- Elements of a list at odd positions (stride 2 from index 1). -/
def odds {α : Type} : List α → List α
  | [] => []
  | [_] => []
  | _ :: b :: rest => b :: odds rest

/-- `scipy.sparse.coo_matrix((val, idx.T), shape=shape)` for an index
array of shape `(nnz, 2)`: column 0 of `idx` (the even positions of the
flat row-major buffer) are the row coordinates, column 1 (the odd
positions) the column coordinates.  Construction validates lengths and
that every coordinate is in bounds for `shape`. -/
def cooMatrix (val : NpArray) (idx : NpArray) (shape : List Nat) :
    Except String SciCoo :=
  match idx.shape, shape with
  | [n, 2], [s0, s1] =>
    let flat := bytesToNats idx.dtype.itemsize idx.buffer
    let rows := evens flat
    let cols := odds flat
    let data := bytesToNats val.dtype.itemsize val.buffer
    if rows.length ≠ n ∨ data.length ≠ n then
      .error "coo_matrix: row, column, and data array must all be the same length"
    else if rows.any (fun i => s0 ≤ i) ∨ cols.any (fun j => s1 ≤ j) then
      .error "coo_matrix: axis index exceeds matrix dimensions"
    else .ok ⟨rows, cols, data, idx.dtype, val.dtype, shape, "coo"⟩
  | _, _ => .error "coo_matrix: unsupported index layout in model"

/-- `scipy.sparse.csr_matrix((vals, (rows, cols)), shape=(n, f))` from
coordinate triples: validates lengths and bounds; the entry triples are
kept and the format tag is `csr`. -/
def csrMatrix (vals rows cols : List Nat) (n f : Nat)
    (idt ddt : Dtype) : Except String SciCoo :=
  if rows.length ≠ cols.length ∨ rows.length ≠ vals.length then
    .error "csr_matrix: row, column, and data array must all be the same length"
  else if rows.any (fun i => n ≤ i) ∨ cols.any (fun j => f ≤ j) then
    .error "csr_matrix: axis index exceeds matrix dimensions"
  else .ok ⟨rows, cols, vals, idt, ddt, [n, f], "csr"⟩

/-- The value returned by the `value` getter or by `unravel`: either
Python `None` or a framework value. -/
inductive GetResult
  | pyNone
  | np (a : NpArray)
  | tfTensor (a : NpArray)
  | torchTensor (a : NpArray)
  | paddleTensor (a : NpArray)
  | scipy (m : SciCoo)
  | tfSparse (t : TfSparse)
  | torchSparse (t : TorchSparse)
deriving DecidableEq, Repr

/-- Whether a getter result is a scipy value left in coordinate order. -/
def isCooResult : Except String GetResult → Bool
  | .ok (.scipy m) => m.fmt == "coo"
  | _ => false

/-- `_to_framework_array(x, framework)`: identity for numpy (possibly
`None`), conversion into the target framework's tensor otherwise (the
converters raise on `None`). -/
def toFrameworkArray (x : Option NpArray) (framework : String) :
    Except String GetResult :=
  if framework = "numpy" then
    match x with
    | some a => .ok (.np a)
    | none => .ok .pyNone
  else if framework = "tensorflow" then
    match x with
    | some a => .ok (.tfTensor a)
    | none => .error "convert_to_tensor: None"
  else if framework = "torch" then
    match x with
    | some a => .ok (.torchTensor a)
    | none => .error "from_numpy: None"
  else if framework = "paddle" then
    match x with
    | some a => .ok (.paddleTensor a)
    | none => .error "to_tensor: None"
  else .ok .pyNone

/-- `_get_raw_sparse_array`: decode the `indices` and `values` element
buffers and read the dense shape. -/
def NdArrayProto.getRawSparse (r : NdArrayProto) :
    Except String (Option NpArray × Option NpArray × List Nat) := do
  let idx ← getDenseArray r.sparseArm.indices
  let val ← getDenseArray r.sparseArm.values
  .ok (idx, val, r.sparseArm.shape)

/-- The set of cls_name values accepted by the dense getter branch. -/
def denseFrameworks : List String := ["numpy", "torch", "paddle", "tensorflow"]

/-- The `NdArray.value` getter: dispatch on which union arm is populated
and on `cls_name`; a fall-through in the Python source returns `None`. -/
def NdArrayProto.value (r : NdArrayProto) : Except String GetResult :=
  let framework := r.cls_name
  if r.isSparse then
    if framework = "scipy" then do
      let (idx?, val?, shape) ← r.getRawSparse
      match idx?, val? with
      | some idx, some val => do
        let x ← cooMatrix val idx shape
        let spFormat := lookupParam r.parameters "sparse_format"
        if spFormat = "bsr" then .ok (.scipy (x.toFormat "bsr"))
        else if spFormat = "csc" then .ok (.scipy (x.toFormat "csc"))
        else if spFormat = "csr" then .ok (.scipy (x.toFormat "csr"))
        else if spFormat = "coo" then .ok (.scipy x)
        else .ok .pyNone
      | _, _ => .error "AttributeError: NoneType in sparse decode"
    else if framework = "tensorflow" then do
      let (idx?, val?, shape) ← r.getRawSparse
      match idx?, val? with
      | some idx, some val => .ok (.tfSparse ⟨idx, val, shape⟩)
      | _, _ => .error "SparseTensor: None component"
    else if framework = "torch" then do
      let (idx?, val?, shape) ← r.getRawSparse
      match idx?, val? with
      | some idx, some val => .ok (.torchSparse ⟨idx, val, shape⟩)
      | _, _ => .error "sparse_coo_tensor: None component"
    else .ok .pyNone
  else
    if framework ∈ denseFrameworks then do
      let x ← getDenseArray r.denseArm
      toFrameworkArray x framework
    else .ok .pyNone

/-- A runtime value handed to the `value` setter, one constructor per
runtime type the source's `_get_array_type` can recognize.  The dense
tensorflow/torch/paddle constructors carry the host numpy array the
source obtains via `.numpy()` / `.detach().cpu().numpy()`. -/
inductive ArrayValue
  | np (a : NpArray)
  | jinaNd (p : NdArrayProto)
  | jinaProto (p : NdArrayProto)
  | tfDense (a : NpArray)
  | torchDense (a : NpArray)
  | paddleDense (a : NpArray)
  | scipySp (m : SciCoo)
  | tfSp (t : TfSparse)
  | torchSp (t : TorchSparse)
deriving Repr

/-- `_get_array_type(array)`: `(framework, is_sparse)` from the runtime
type identity (module tags + class name in the source; the constructor
here). -/
def getArrayType : ArrayValue → String × Bool
  | .np _ => ("numpy", false)
  | .jinaNd _ => ("jina", false)
  | .jinaProto _ => ("jina_proto", false)
  | .tfSp _ => ("tensorflow", true)
  | .tfDense _ => ("tensorflow", false)
  | .torchDense _ => ("torch", false)
  | .torchSp _ => ("torch", true)
  | .paddleDense _ => ("paddle", false)
  | .scipySp _ => ("scipy", true)

/-- `dst.CopyFrom(src)`: protobuf message copy replaces every field of
the destination with the source's. -/
def copyFrom (_dst src : NdArrayProto) : NdArrayProto := src

/-- `NdArray._set_scipy_sparse`: normalize to COO, stack `(row, col)`
pairs into an `(nnz, 2)` index array (`np.stack([v.row, v.col], axis=1)`,
row-major so the pairs are interleaved in the buffer), flatten the data
into the values array, and record the dense shape. -/
def NdArrayProto.setScipySparse (r : NdArrayProto) (value : SciCoo) : NdArrayProto :=
  let v := value.tocoo
  let w := v.idtype.itemsize
  let indices : NpArray :=
    ⟨v.idtype, [v.rows.length, 2],
      (List.zipWith (fun a b => natToBytes w a ++ natToBytes w b) v.rows v.cols).flatten⟩
  let values : NpArray :=
    ⟨v.ddtype, [v.data.length], (v.data.map (natToBytes v.ddtype.itemsize)).flatten⟩
  { r with
    content := .sparse ⟨setDenseArray indices, setDenseArray values, v.shape⟩,
    cls_name := "scipy" }

/-- `NdArray._set_tf_sparse`: store the SparseTensor's `indices` and
`values` host arrays and its dense shape. -/
def NdArrayProto.setTfSparse (r : NdArrayProto) (value : TfSparse) : NdArrayProto :=
  { r with
    content := .sparse ⟨setDenseArray value.indices, setDenseArray value.values, value.shape⟩,
    cls_name := "tensorflow" }

/-- `NdArray._set_torch_sparse`: store the coalesced tensor's
`indices()` and `values()` host arrays and its `size()`. -/
def NdArrayProto.setTorchSparse (r : NdArrayProto) (value : TorchSparse) : NdArrayProto :=
  { r with
    content := .sparse ⟨setDenseArray value.indices, setDenseArray value.values, value.size⟩,
    cls_name := "torch" }

/-- The `NdArray.value` setter: dispatch on `_get_array_type`.  The
`jina`/`jina_proto` branches assign `cls_name = 'numpy'` and then
`CopyFrom` the source proto (which overwrites every field, the fresh
`cls_name` included); the other branches encode. -/
def NdArrayProto.setValue (r : NdArrayProto) (v : ArrayValue) : NdArrayProto :=
  match v with
  | .jinaNd src => copyFrom { r with cls_name := "numpy" } src
  | .jinaProto src => copyFrom { r with cls_name := "numpy" } src
  | .scipySp m =>
    let r1 := { r with parameters := setParam r.parameters "sparse_format" m.getformat }
    r1.setScipySparse m
  | .tfSp t => r.setTfSparse t
  | .torchSp t => r.setTorchSparse t
  | .np a => { r with cls_name := "numpy", content := .dense (setDenseArray a) }
  | .tfDense a => { r with cls_name := "tensorflow", content := .dense (setDenseArray a) }
  | .torchDense a => { r with cls_name := "torch", content := .dense (setDenseArray a) }
  | .paddleDense a => { r with cls_name := "paddle", content := .dense (setDenseArray a) }

/-- Byte-wise concatenation of a list of buffers (`b''.join(source)`). -/
def catBufs : List (List Nat) → List Nat
  | [] => []
  | b :: bs => b ++ catBufs bs

/-- `_unravel_dense_array(source, shape, dtype)`: join the raw buffers,
reinterpret under `dtype`, reshape to `[-1] + shape`. -/
def unravelDenseArray (source : List (List Nat)) (shape : List Nat)
    (dtype : Dtype) : Except String NpArray := do
  let xMat := catBufs source
  let x ← frombuffer xMat dtype
  reshapeNeg1 shape x

/-- Bytes of row `i` of a 2-d array of shape `[r, m]`. -/
def rowBytes (a : NpArray) (i : Nat) : List Nat :=
  let m := (a.shape.get? 1).getD 0
  (a.buffer.drop (i * m * a.dtype.itemsize)).take (m * a.dtype.itemsize)

/-- `np.vstack([a, b])` for 2-d arrays with equal row width; the model
covers the homogeneous-dtype case (the torch unravel path it serves is
exercised by no claim). -/
def vstack (a b : NpArray) : Except String NpArray :=
  match a.shape, b.shape with
  | [r1, m1], [r2, m2] =>
    if a.dtype = b.dtype ∧ m1 = m2 then
      .ok ⟨a.dtype, [r1 + r2, m1], a.buffer ++ b.buffer⟩
    else .error "vstack: shape/dtype mismatch in model"
  | _, _ => .error "vstack: expects 2-d arrays in model"

/-- `np.concatenate(list, axis=-1)` for 2-d arrays sharing dtype and row
count: each result row is the concatenation of the operand rows. -/
def concatLast (ds : List NpArray) : Except String NpArray :=
  match ds with
  | [] => .error "concatenate: need at least one array"
  | a :: _ =>
    let r := (a.shape.get? 0).getD 0
    if ds.all (fun b =>
        b.dtype == a.dtype && b.shape.length == 2 && (b.shape.get? 0).getD 0 == r) then
      let cols := (ds.map (fun b => (b.shape.get? 1).getD 0)).foldr (fun x y => x + y) 0
      .ok ⟨a.dtype, [r, cols],
        ((List.range r).map (fun i => catBufs (ds.map (fun b => rowBytes b i)))).flatten⟩
    else .error "concatenate: shape/dtype mismatch"

/-- The `row_indices` accumulation of the scipy unravel loop:
`row_indices += [k] * pb_body_k.sparse.values.shape[0]` (an `IndexError`
when a record's values shape is empty). -/
def rowIndicesOf (protos : List NdArrayProto) : Except String (List Nat) := do
  let parts ← protos.enum.mapM (fun kp =>
    match kp.2.sparseArm.values.shape.get? 0 with
    | none => Except.error "IndexError: shape[0] of empty repeated field"
    | some nnz => Except.ok (List.replicate nnz kp.1))
  .ok parts.flatten

/-- `indices_np.reshape(2, -1)[1, :]` on the flat decoded index list:
the second half of the list (row-major split into two rows). -/
def reshape2Row1 (l : List Nat) : Except String (List Nat) :=
  if l.length % 2 = 0 then .ok (l.drop (l.length / 2))
  else .error "reshape: cannot reshape array into shape (2, newaxis)"

/-- The scipy branch of `NdArray.unravel`: concatenate all index and
value buffers, reinterpret, extract the column coordinates as
`reshape(2, -1)[1, :]`, synthesize `row_indices`, and assemble a CSR
matrix of shape `(n_examples, n_features)`.  When the first record's
values dtype string is empty the branch is skipped and the function
returns `None`. -/
def unravelScipy (protos : List NdArrayProto) (first : NdArrayProto) :
    Except String GetResult := do
  let nExamples := protos.length
  match first.sparseArm.shape.get? 1 with
  | none => .error "IndexError: sparse.shape[1]"
  | some nFeatures =>
    let indicesDtype := first.sparseArm.indices.dtype
    let valuesDtype := first.sparseArm.values.dtype
    let indicesBytes := catBufs (protos.map (fun p => p.sparseArm.indices.buffer))
    let valuesBytes := catBufs (protos.map (fun p => p.sparseArm.values.buffer))
    let rowIndices ← rowIndicesOf protos
    if valuesDtype.str ≠ "" then do
      let indicesNp ← frombuffer indicesBytes indicesDtype
      let flatIdx := bytesToNats indicesDtype.itemsize indicesNp.buffer
      let colsNp ← reshape2Row1 flatIdx
      let valsNp ← frombuffer valuesBytes valuesDtype
      let vals := bytesToNats valuesDtype.itemsize valsNp.buffer
      let csr ← csrMatrix vals rowIndices colsNp nExamples nFeatures
          indicesDtype valuesDtype
      .ok (.scipy csr)
    else .ok .pyNone

/-- The torch branch of `NdArray.unravel`: per record, decode the index
array, vstack a synthesized batch-index row `[j] * nnz` (int32) on top,
concatenate along the last axis, flatten all value buffers, and build a
`sparse_coo_tensor` with shape `[N] + first.sparse.shape`. -/
def unravelTorchSparse (protos : List NdArrayProto) (first : NdArrayProto) :
    Except String GetResult := do
  let allDs ← protos.enum.mapM (fun jp => do
    let dOpt ← getDenseArray jp.2.sparseArm.indices
    match dOpt with
    | none => Except.error "AttributeError: NoneType sparse indices"
    | some d =>
      match d.shape.getLast? with
      | none => Except.error "IndexError: shape[-1]"
      | some m =>
        let idxRow : NpArray :=
          ⟨⟨"<i4", 4⟩, [1, m], (List.replicate m (natToBytes 4 jp.1)).flatten⟩
        vstack idxRow d)
  let val ← unravelDenseArray (protos.map (fun p => p.sparseArm.values.buffer))
      [] first.sparseArm.values.dtype
  let idx ← concatLast allDs
  let shape := protos.length :: first.sparseArm.shape
  .ok (.torchSparse ⟨idx, val, shape⟩)

/-- `NdArray.unravel(protos)`: branch on the first record's `cls_name`
and sparsity; a fall-through in the Python source returns `None`, and an
empty input raises `StopIteration`. -/
def unravel (protos : List NdArrayProto) : Except String GetResult :=
  match protos with
  | [] => .error "StopIteration"
  | first :: _ =>
    let framework := first.cls_name
    if first.isSparse then
      if framework = "tensorflow" then
        .error "NotImplementedError: fast ravel on sparse tensorflow is not supported yet."
      else if framework = "scipy" then unravelScipy protos first
      else if framework = "torch" then unravelTorchSparse protos first
      else .ok .pyNone
    else
      if framework ∈ denseFrameworks then do
        let x ← unravelDenseArray (protos.map (fun p => p.denseArm.buffer))
            first.denseArm.shape first.denseArm.dtype
        toFrameworkArray (some x) framework
      else .ok .pyNone

/-- The slice `a[k]` along the leading axis of a dense array. -/
def npSlice0 (a : NpArray) (k : Nat) : NpArray :=
  let rest := a.shape.tail
  let rowB := a.dtype.itemsize * listProd rest
  ⟨a.dtype, rest, (a.buffer.drop (k * rowB)).take rowB⟩

/-! ## Concrete sample values used by the witness and counterexample
theorems below. -/

/-- A well-formed 2×2 float32 array (16 buffer bytes). -/
def v0 : NpArray := ⟨⟨"<f4", 4⟩, [2, 2], List.replicate 16 1⟩

/-- A zero-element int32 array of shape `[0]` (empty buffer). -/
def vZero : NpArray := ⟨⟨"<i4", 4⟩, [0], []⟩

/-- A 1×3 scipy COO matrix with nonzeros `(0,1)=5` and `(0,2)=7`,
int32 coordinates and uint64 data. -/
def cooC3 : SciCoo := ⟨[0, 0], [1, 2], [5, 7], ⟨"<i4", 4⟩, ⟨"<u8", 8⟩, [1, 3], "coo"⟩

/-- The wire record obtained by encoding `cooC3`. -/
def rC3 : NdArrayProto := emptyProto.setValue (.scipySp cooC3)

/-- The batched CSR triples that `unravel` actually produces from
`[rC3]`: the column coordinates come out as `[0, 2]`, not `[1, 2]`. -/
def csrC3 : SciCoo := ⟨[0, 0], [0, 2], [5, 7], ⟨"<i4", 4⟩, ⟨"<u8", 8⟩, [1, 3], "csr"⟩

/-- A record encoding the same matrix but carrying the unrecognized
sparse storage format tag `lil`. -/
def rC4 : NdArrayProto := emptyProto.setValue (.scipySp { cooC3 with fmt := "lil" })

/-- The sparse arm of `rC4`. -/
def sC4 : SparseValue := rC4.sparseArm

/-- The decoded indices array of `rC4` (shape `(2, 2)`, int32). -/
def idxC4 : NpArray := ⟨⟨"<i4", 4⟩, [2, 2], ([0, 1, 0, 2].map (natToBytes 4)).flatten⟩

/-- The decoded values array of `rC4` (shape `(2,)`, uint64). -/
def valC4 : NpArray := ⟨⟨"<u8", 8⟩, [2], ([5, 7].map (natToBytes 8)).flatten⟩

/-- The COO matrix assembled by the getter from `rC4`'s buffers. -/
def mC4 : SciCoo := ⟨[0, 0], [1, 2], [5, 7], ⟨"<i4", 4⟩, ⟨"<u8", 8⟩, [1, 3], "coo"⟩

/-- A coalesced torch sparse tensor: dense shape `(4, 5)` (`ndim = 2`),
3 nonzeros at `(0,0), (1,2), (3,4)` with values `5, 6, 7`; its
`indices()` array has the torch-native shape `(ndim, nnz) = (2, 3)`. -/
def torchC8 : TorchSparse :=
  ⟨⟨⟨"<i8", 8⟩, [2, 3], ([0, 1, 3, 0, 2, 4].map (natToBytes 8)).flatten⟩,
   ⟨⟨"<i8", 8⟩, [3], ([5, 6, 7].map (natToBytes 8)).flatten⟩,
   [4, 5]⟩

/-- The wire record obtained by encoding `torchC8`. -/
def rC8 : NdArrayProto := emptyProto.setValue (.torchSp torchC8)

/-- A tensorflow-tagged sparse record (2×2, nonzeros at `(0,0)` and
`(0,1)`). -/
def rC9 : NdArrayProto :=
  ⟨"tensorflow", [],
   .sparse ⟨⟨([0, 0, 0, 1].map (natToBytes 8)).flatten, [2, 2], ⟨"<i8", 8⟩⟩,
            ⟨([5, 7].map (natToBytes 8)).flatten, [2], ⟨"<i8", 8⟩⟩, [2, 2]⟩⟩

/-- A sparse record whose cls_name names a backend without a sparse
decoder. -/
def rC10 : NdArrayProto := ⟨"numpy", [], .sparse emptySparse⟩

/-! ## Helper lemmas -/

/-- Monadic bind on `Except` applied to a success value. -/
theorem exceptBind_ok {α β : Type} (a : α) (f : α → Except String β) :
    (Except.ok a >>= f : Except String β) = f a := rfl

/-- Monadic bind on `Except` applied to an error value. -/
theorem exceptBind_error {α β : Type} (msg : String) (f : α → Except String β) :
    (Except.error msg >>= f : Except String β) = Except.error msg := rfl

/-- Dense decode of a well-formed element buffer with a positive element
count reproduces the array `(dtype, shape, bytes)` exactly. -/
theorem getDense_of_wf (e : ElementBuffer) (d : Dtype) (S : List Nat)
    (hd : e.dtype = d) (hs : e.shape = S)
    (hl : e.buffer.length = d.itemsize * listProd S)
    (hit : 0 < d.itemsize) (hp : 0 < listProd S) :
    getDenseArray e = .ok (some ⟨d, S, e.buffer⟩) := by
  have hiz : d.itemsize ≠ 0 := Nat.pos_iff_ne_zero.mp hit
  have hlen0 : e.buffer.length ≠ 0 := by
    rw [hl]
    exact Nat.pos_iff_ne_zero.mp (Nat.mul_pos hit hp)
  have hne : e.buffer ≠ [] := by
    intro h0
    exact hlen0 (by simp [h0])
  have hmod : e.buffer.length % d.itemsize = 0 := by
    rw [hl]
    exact Nat.mul_mod_right _ _
  have hdiv : e.buffer.length / d.itemsize = listProd S := by
    rw [hl]
    exact Nat.mul_div_cancel_left _ hit
  have hfb : frombuffer e.buffer e.dtype = .ok ⟨d, [listProd S], e.buffer⟩ := by
    rw [hd]
    simp [frombuffer, hiz, hmod, hdiv]
  have hrs : reshapeTo e.shape (⟨d, [listProd S], e.buffer⟩ : NpArray) =
      .ok ⟨d, S, e.buffer⟩ := by
    rw [hs]
    simp [reshapeTo, listProd]
  simp [getDenseArray, hne, hfb, hrs, exceptBind_ok]

/-- Length of a byte-wise concatenation of uniform-length buffers. -/
theorem catBufs_length (l : List (List Nat)) (L : Nat)
    (h : ∀ b ∈ l, b.length = L) : (catBufs l).length = l.length * L := by
  induction l with
  | nil => simp [catBufs]
  | cons b t ih =>
    have hb := h b (List.mem_cons_self b t)
    have ih' := ih (fun x hx => h x (List.mem_cons_of_mem b hx))
    simp [catBufs, hb, ih']
    ring

/-- Segment `k` of a byte-wise concatenation of uniform-length buffers
is the `k`-th buffer. -/
theorem catBufs_segment (l : List (List Nat)) (L : Nat)
    (h : ∀ b ∈ l, b.length = L) :
    ∀ k (hk : k < l.length),
      ((catBufs l).drop (k * L)).take L = l.get ⟨k, hk⟩ := by
  induction l with
  | nil =>
    intro k hk
    simp at hk
  | cons b t ih =>
    intro k hk
    have hb := h b (List.mem_cons_self b t)
    match k with
    | 0 =>
      show ((b ++ catBufs t).drop (0 * L)).take L = b
      rw [Nat.zero_mul, List.drop_zero, ← hb, List.take_left]
    | k + 1 =>
      have hk' : k < t.length := by simpa using hk
      have harith : (k + 1) * L = b.length + k * L := by
        rw [hb]
        ring
      show ((b ++ catBufs t).drop ((k + 1) * L)).take L = _
      rw [harith, List.drop_append, ih (fun x hx => h x (List.mem_cons_of_mem b hx)) k hk']
      rfl

/-- Joining uniform well-sized buffers, reinterpreting under `d` and
reshaping to `[-1] + S` yields the batched array of shape `[N] + S`
over the concatenated bytes. -/
theorem unravelDense_ok (bufs : List (List Nat)) (d : Dtype) (S : List Nat)
    (hit : 0 < d.itemsize) (hS : 0 < listProd S)
    (hbl : ∀ b ∈ bufs, b.length = d.itemsize * listProd S) :
    unravelDenseArray bufs S d = .ok ⟨d, bufs.length :: S, catBufs bufs⟩ := by
  have hiz : d.itemsize ≠ 0 := Nat.pos_iff_ne_zero.mp hit
  have hcat : (catBufs bufs).length = d.itemsize * (bufs.length * listProd S) := by
    rw [catBufs_length bufs _ hbl]
    ring
  have hmod : (catBufs bufs).length % d.itemsize = 0 := by
    rw [hcat]
    exact Nat.mul_mod_right _ _
  have hdiv : (catBufs bufs).length / d.itemsize = bufs.length * listProd S := by
    rw [hcat]
    exact Nat.mul_div_cancel_left _ hit
  have h1 : frombuffer (catBufs bufs) d =
      .ok ⟨d, [bufs.length * listProd S], catBufs bufs⟩ := by
    simp [frombuffer, hiz, hmod, hdiv]
  have hx : listProd [bufs.length * listProd S] = bufs.length * listProd S := by
    simp [listProd]
  have h2 : reshapeNeg1 S (⟨d, [bufs.length * listProd S], catBufs bufs⟩ : NpArray) =
      .ok ⟨d, bufs.length :: S, catBufs bufs⟩ := by
    have hdvd : listProd S ∣ listProd [bufs.length * listProd S] := by
      rw [hx]
      exact Dvd.intro bufs.length (Nat.mul_comm _ _)
    have hdq : listProd [bufs.length * listProd S] / listProd S = bufs.length := by
      rw [hx]
      exact Nat.mul_div_cancel _ hS
    simp only [reshapeNeg1]
    rw [if_pos ⟨hS, hdvd⟩, hdq]
  simp [unravelDenseArray, h1, h2, exceptBind_ok]

/-- Slice `k` of the batched array over concatenated uniform buffers is
the `k`-th buffer under the per-record shape. -/
theorem npSlice0_catBufs (bufs : List (List Nat)) (d : Dtype) (S : List Nat)
    (hbl : ∀ b ∈ bufs, b.length = d.itemsize * listProd S)
    (k : Nat) (hk : k < bufs.length) :
    npSlice0 ⟨d, bufs.length :: S, catBufs bufs⟩ k = ⟨d, S, bufs.get ⟨k, hk⟩⟩ := by
  unfold npSlice0
  simp only [List.tail_cons]
  rw [catBufs_segment bufs _ hbl k hk]

/-! ## Claim theorems -/

/-- Claim C1 (corrected): for every dense numpy array `v` with at least
one element, setting it as a record's value and reading it back returns
an array bit-for-bit equal to `v` — same dtype string, same shape, same
buffer bytes.  (The original universal claim fails for zero-element
arrays, which decode as default-dtype zeros; see the counterexample.) -/
theorem dense_set_get_roundtrip (r : NdArrayProto) (v : NpArray)
    (hwf : v.wf) (hpos : 0 < listProd v.shape) :
    (r.setValue (.np v)).value = .ok (.np v) := by
  obtain ⟨hit, hl⟩ := hwf
  have hgd : getDenseArray ⟨v.buffer, v.shape, v.dtype⟩ = .ok (some ⟨v.dtype, v.shape, v.buffer⟩) :=
    getDense_of_wf ⟨v.buffer, v.shape, v.dtype⟩ v.dtype v.shape rfl rfl hl hit hpos
  show NdArrayProto.value ⟨"numpy", r.parameters, .dense ⟨v.buffer, v.shape, v.dtype⟩⟩ = _
  simp [NdArrayProto.value, NdArrayProto.isSparse, NdArrayProto.denseArm,
    denseFrameworks, hgd, exceptBind_ok, toFrameworkArray]

/-- Witness for claim C1's theorem at a concrete well-formed array. -/
theorem dense_set_get_roundtrip_example :
    v0.wf ∧ 0 < listProd v0.shape ∧
    (emptyProto.setValue (.np v0)).value = .ok (.np v0) :=
  ⟨⟨by decide, by decide⟩, by decide,
   dense_set_get_roundtrip emptyProto v0 ⟨by decide, by decide⟩ (by decide)⟩

/-- Counterexample to claim C1 as stated: the zero-element int32 array
of shape `[0]` round-trips to `np.zeros([0])`, a float64 array — the
dtype string is not preserved, so the result is not bit-for-bit equal. -/
theorem dense_set_get_roundtrip_cex :
    (emptyProto.setValue (.np vZero)).value = .ok (.np (npZeros [0])) ∧
    GetResult.np (npZeros [0]) ≠ GetResult.np vZero :=
  ⟨rfl, by decide⟩

/-- Claim C5 (corrected): dense decode of an `ElementBuffer` with empty
buffer and a non-empty shape of nonzero product returns a zero-filled,
default-dtype (float64) array of that shape — it does not fail with a
shape/buffer-mismatch error. -/
theorem empty_buffer_decode_returns_zeros (e : ElementBuffer)
    (hb : e.buffer = []) (hs : e.shape ≠ []) (hp : 0 < listProd e.shape) :
    getDenseArray e = .ok (some (npZeros e.shape)) := by
  have hlen : 0 < e.shape.length := List.length_pos.mpr hs
  simp [getDenseArray, hb, hlen]

/-- Witness for claim C5's theorem at shape `[2, 2]`. -/
theorem empty_buffer_decode_returns_zeros_example :
    (⟨[], [2, 2], ⟨"<f4", 4⟩⟩ : ElementBuffer).buffer = [] ∧
    0 < listProd [2, 2] ∧
    getDenseArray ⟨[], [2, 2], ⟨"<f4", 4⟩⟩ = .ok (some (npZeros [2, 2])) :=
  ⟨rfl, by decide,
   empty_buffer_decode_returns_zeros ⟨[], [2, 2], ⟨"<f4", 4⟩⟩ rfl (by decide) (by decide)⟩

/-- Counterexample to claim C5 as stated: at the claim's own example
input (empty buffer, shape `[3, 4]`) dense decode succeeds with a
zero-filled array instead of failing with `ShapeBufferMismatch`. -/
theorem empty_buffer_decode_no_error :
    getDenseArray ⟨[], [3, 4], ⟨"<i4", 4⟩⟩ = .ok (some (npZeros [3, 4])) ∧
    (getDenseArray ⟨[], [3, 4], ⟨"<i4", 4⟩⟩).isOk = true :=
  ⟨rfl, rfl⟩

/-- Claim C6 (confirmed): for every `ElementBuffer` with an empty buffer
and shape `[3, 4]` (any dtype tag), dense decode returns the zero-filled
array `np.zeros([3, 4])` — 96 zero bytes of default dtype — and raises
no error. -/
theorem empty_buffer_shape34_decodes_to_zeros (d : Dtype) :
    getDenseArray ⟨[], [3, 4], d⟩ = .ok (some (npZeros [3, 4])) ∧
    (npZeros [3, 4]).shape = [3, 4] ∧
    (npZeros [3, 4]).buffer = List.replicate 96 0 :=
  ⟨rfl, rfl, rfl⟩

/-- Claim C7 (confirmed): setting a record's value from another wire
record (`NdArray` wrapper or raw proto) copies the source message
verbatim — populated union arm, buffer bytes, and cls_name all equal the
source's, with no re-encoding (the stored buffers are the source's own
bytes). -/
theorem passthrough_copies_exactly (r src : NdArrayProto) :
    r.setValue (.jinaNd src) = src ∧
    r.setValue (.jinaProto src) = src ∧
    (r.setValue (.jinaNd src)).content = src.content ∧
    (r.setValue (.jinaNd src)).cls_name = src.cls_name ∧
    (r.setValue (.jinaNd src)).denseArm.buffer = src.denseArm.buffer ∧
    (r.setValue (.jinaNd src)).sparseArm.indices.buffer = src.sparseArm.indices.buffer ∧
    (r.setValue (.jinaNd src)).sparseArm.values.buffer = src.sparseArm.values.buffer :=
  ⟨rfl, rfl, rfl, rfl, rfl, rfl, rfl⟩

/-- Claim C9 (confirmed): unravel of a non-empty sequence of sparse
tensorflow records raises `NotImplementedError` — it does not fall back
to per-record decoding. -/
theorem unravel_sparse_tf_not_implemented (first : NdArrayProto)
    (rest : List NdArrayProto)
    (hs : first.isSparse = true) (hf : first.cls_name = "tensorflow") :
    unravel (first :: rest) =
      .error "NotImplementedError: fast ravel on sparse tensorflow is not supported yet." := by
  simp [unravel, hs, hf]

/-- Witness for claim C9's theorem at a concrete sparse tf record. -/
theorem unravel_sparse_tf_not_implemented_example :
    rC9.isSparse = true ∧ rC9.cls_name = "tensorflow" ∧
    unravel [rC9] =
      .error "NotImplementedError: fast ravel on sparse tensorflow is not supported yet." :=
  ⟨rfl, rfl, unravel_sparse_tf_not_implemented rC9 [] rfl rfl⟩

/-- Claim C10 (confirmed): a record whose sparse union arm is populated
but whose cls_name is none of scipy/tensorflow/torch decodes to an
absent value (`None`) rather than raising. -/
theorem sparse_unknown_framework_returns_none (r : NdArrayProto)
    (s : SparseValue) (hc : r.content = .sparse s)
    (h1 : r.cls_name ≠ "scipy") (h2 : r.cls_name ≠ "tensorflow")
    (h3 : r.cls_name ≠ "torch") :
    r.value = .ok .pyNone := by
  have hs : r.isSparse = true := by simp [NdArrayProto.isSparse, hc]
  simp [NdArrayProto.value, hs, h1, h2, h3]

/-- Witness for claim C10's theorem: a numpy-tagged sparse record. -/
theorem sparse_unknown_framework_returns_none_example :
    rC10.cls_name = "numpy" ∧ rC10.value = .ok .pyNone :=
  ⟨rfl, sparse_unknown_framework_returns_none rC10 emptySparse rfl
    (by decide) (by decide) (by decide)⟩

/-- Claim C4 (corrected): for a scipy sparse record whose
`sparse_format` parameter is none of `coo`/`csr`/`csc`/`bsr`, the getter
returns an absent value (`None`) — it neither raises nor falls back to
coordinate order.  (The Python if/elif chain has no else branch, so the
function falls off the end.) -/
theorem scipy_unknown_format_returns_none (r : NdArrayProto)
    (s : SparseValue) (idx val : NpArray) (m : SciCoo)
    (hc : r.content = .sparse s) (hf : r.cls_name = "scipy")
    (hidx : getDenseArray s.indices = .ok (some idx))
    (hval : getDenseArray s.values = .ok (some val))
    (hcoo : cooMatrix val idx s.shape = .ok m)
    (h1 : lookupParam r.parameters "sparse_format" ≠ "bsr")
    (h2 : lookupParam r.parameters "sparse_format" ≠ "csc")
    (h3 : lookupParam r.parameters "sparse_format" ≠ "csr")
    (h4 : lookupParam r.parameters "sparse_format" ≠ "coo") :
    r.value = .ok .pyNone := by
  have hs : r.isSparse = true := by
    simp [NdArrayProto.isSparse, hc]
  have hsa : r.sparseArm = s := by
    simp [NdArrayProto.sparseArm, hc]
  have hraw : r.getRawSparse = .ok (some idx, some val, s.shape) := by
    simp [NdArrayProto.getRawSparse, hsa, hidx, hval, exceptBind_ok]
  simp [NdArrayProto.value, hs, hf, hraw, hcoo, h1, h2, h3, h4, exceptBind_ok]

/-- Witness for claim C4's theorem: a record carrying the unrecognized
format tag `lil`. -/
theorem scipy_unknown_format_returns_none_example :
    lookupParam rC4.parameters "sparse_format" = "lil" ∧
    rC4.value = .ok .pyNone :=
  ⟨rfl, scipy_unknown_format_returns_none rC4 sC4 idxC4 valC4 mC4
    rfl rfl rfl rfl rfl (by decide) (by decide) (by decide) (by decide)⟩

/-- Counterexample to claim C4 as stated: with `sparse_format = "lil"`
the getter returns `None`, not a coordinate-order scipy value. -/
theorem scipy_unknown_format_returns_none_cex :
    rC4.value = .ok .pyNone ∧ isCooResult rC4.value = false :=
  ⟨rfl, rfl⟩

/-- Claim C8 (corrected): the scipy and tensorflow sparse encoders store
an indices buffer of shape `(nnz, ndim)` and a values buffer of shape
`(nnz,)` (so `indices.shape[0] = values.shape[0]`, one coordinate row
per non-zero in value order — witnessed for scipy by the values buffer
being the data flattened in order); the torch encoder instead stores its
native coalesced layout, indices of shape `(ndim, nnz)` with
`indices.shape[1] = values.shape[0]`. -/
theorem sparse_encode_layout (r1 r2 r3 : NdArrayProto) (m : SciCoo)
    (t : TfSparse) (u : TorchSparse) (nnz2 nd2 nnz3 nd3 : Nat)
    (hmd : m.data.length = m.rows.length)
    (ht1 : t.indices.shape = [nnz2, nd2]) (ht2 : t.values.shape = [nnz2])
    (hu1 : u.indices.shape = [nd3, nnz3]) (hu2 : u.values.shape = [nnz3]) :
    ((r1.setValue (.scipySp m)).sparseArm.indices.shape = [m.rows.length, 2] ∧
     (r1.setValue (.scipySp m)).sparseArm.values.shape = [m.rows.length] ∧
     (r1.setValue (.scipySp m)).sparseArm.values.buffer =
       (m.data.map (natToBytes m.ddtype.itemsize)).flatten) ∧
    ((r2.setValue (.tfSp t)).sparseArm.indices.shape = [nnz2, nd2] ∧
     (r2.setValue (.tfSp t)).sparseArm.values.shape = [nnz2]) ∧
    ((r3.setValue (.torchSp u)).sparseArm.indices.shape = [nd3, nnz3] ∧
     (r3.setValue (.torchSp u)).sparseArm.values.shape = [nnz3]) := by
  refine ⟨⟨?_, ?_, ?_⟩, ⟨?_, ?_⟩, ⟨?_, ?_⟩⟩ <;>
    simp [NdArrayProto.setValue, NdArrayProto.setScipySparse,
      NdArrayProto.setTfSparse, NdArrayProto.setTorchSparse,
      NdArrayProto.sparseArm, setDenseArray, SciCoo.tocoo,
      hmd, ht1, ht2, hu1, hu2]

/-- A concrete tensorflow SparseTensor with 2 nonzeros in a 2×2 dense
shape (`indices` of shape `(nnz, ndim) = (2, 2)`). -/
def tfC8 : TfSparse :=
  ⟨⟨⟨"<i8", 8⟩, [2, 2], ([0, 0, 0, 1].map (natToBytes 8)).flatten⟩,
   ⟨⟨"<i8", 8⟩, [2], ([5, 7].map (natToBytes 8)).flatten⟩,
   [2, 2]⟩

/-- Witness for claim C8's theorem at concrete scipy, tensorflow and
torch sparse values. -/
theorem sparse_encode_layout_example :
    cooC3.data.length = cooC3.rows.length ∧
    ((emptyProto.setValue (.scipySp cooC3)).sparseArm.indices.shape = [2, 2] ∧
     (emptyProto.setValue (.scipySp cooC3)).sparseArm.values.shape = [2] ∧
     (emptyProto.setValue (.scipySp cooC3)).sparseArm.values.buffer =
       (cooC3.data.map (natToBytes cooC3.ddtype.itemsize)).flatten) ∧
    ((emptyProto.setValue (.tfSp tfC8)).sparseArm.indices.shape = [2, 2] ∧
     (emptyProto.setValue (.tfSp tfC8)).sparseArm.values.shape = [2]) ∧
    ((emptyProto.setValue (.torchSp torchC8)).sparseArm.indices.shape = [2, 3] ∧
     (emptyProto.setValue (.torchSp torchC8)).sparseArm.values.shape = [3]) :=
  ⟨rfl, sparse_encode_layout emptyProto emptyProto emptyProto cooC3 tfC8 torchC8
    2 2 3 2 rfl rfl rfl rfl rfl⟩

/-- Counterexample to claim C8 as stated: encoding the torch sparse
tensor `torchC8` (`nnz = 3`, `ndim = 2`) stores an indices buffer of
shape `(2, 3) = (ndim, nnz)`, not `(nnz, ndim) = (3, 2)`, and
`indices.shape[0] ≠ values.shape[0]`. -/
theorem torch_encode_indices_not_nnz_ndim :
    rC8.sparseArm.indices.shape = [2, 3] ∧
    rC8.sparseArm.values.shape = [3] ∧
    ([2, 3] : List Nat) ≠ [3, 2] ∧
    rC8.sparseArm.indices.shape.head? ≠ rC8.sparseArm.values.shape.head? :=
  ⟨rfl, rfl, by decide, by decide⟩

/-- Claim C2 (corrected): unravel of a non-empty sequence of dense
records of any dense-supported backend tag, sharing dtype `d` and a
per-record shape `S` of nonzero product (each buffer holding exactly
`itemsize · prod S` bytes), returns the single batched array of shape
`[N, *S]` over the concatenated buffers — wrapped for the first
record's backend by `_to_framework_array` — and its slice at every
index `k < N` is exactly the single-record dense decode of record `k`.
(The original universal claim fails for zero-volume per-record shapes,
where the `[-1]`-reshape cannot infer the batch axis and raises; see
the counterexample.) -/
theorem unravel_dense_batch (first : NdArrayProto) (rest : List NdArrayProto)
    (d : Dtype) (S : List Nat)
    (hsp : first.isSparse = false) (hfw : first.cls_name ∈ denseFrameworks)
    (hit : 0 < d.itemsize) (hS : 0 < listProd S)
    (hall : ∀ p ∈ first :: rest,
      p.denseArm.dtype = d ∧ p.denseArm.shape = S ∧
      p.denseArm.buffer.length = d.itemsize * listProd S) :
    unravel (first :: rest) =
      toFrameworkArray (some ⟨d, (first :: rest).length :: S,
        catBufs ((first :: rest).map (fun p => p.denseArm.buffer))⟩) first.cls_name ∧
    ∀ k (hk : k < (first :: rest).length),
      npSlice0 (⟨d, (first :: rest).length :: S,
          catBufs ((first :: rest).map (fun p => p.denseArm.buffer))⟩ : NpArray) k =
        ⟨d, S, ((first :: rest).get ⟨k, hk⟩).denseArm.buffer⟩ ∧
      getDenseArray ((first :: rest).get ⟨k, hk⟩).denseArm =
        .ok (some ⟨d, S, ((first :: rest).get ⟨k, hk⟩).denseArm.buffer⟩) := by
  have hbl : ∀ b ∈ (first :: rest).map (fun p => p.denseArm.buffer),
      b.length = d.itemsize * listProd S := by
    intro b hb
    obtain ⟨p, hp, rfl⟩ := List.mem_map.mp hb
    exact (hall p hp).2.2
  have hlm : ((first :: rest).map (fun p => p.denseArm.buffer)).length =
      (first :: rest).length := List.length_map _ _
  constructor
  · obtain ⟨hfd, hfs, _⟩ := hall first (List.mem_cons_self _ _)
    have hun := unravelDense_ok ((first :: rest).map (fun p => p.denseArm.buffer))
      d S hit hS hbl
    rw [hlm] at hun
    simp only [List.map_cons, List.length_cons] at hun
    simp [unravel, hsp, hfw, hfd, hfs, hun, exceptBind_ok]
  · intro k hk
    have hk' : k < ((first :: rest).map (fun p => p.denseArm.buffer)).length := by
      rw [hlm]
      exact hk
    have hget : ((first :: rest).map (fun p => p.denseArm.buffer)).get ⟨k, hk'⟩ =
        ((first :: rest).get ⟨k, hk⟩).denseArm.buffer := by
      simp only [List.get_eq_getElem, List.getElem_map]
    obtain ⟨hpd, hps, hpl⟩ := hall _ (List.get_mem (first :: rest) k hk)
    constructor
    · have hsl := npSlice0_catBufs ((first :: rest).map (fun p => p.denseArm.buffer))
        d S hbl k hk'
      rw [hget] at hsl
      rw [hlm] at hsl
      exact hsl
    · exact getDense_of_wf ((first :: rest).get ⟨k, hk⟩).denseArm d S hpd hps hpl hit hS

/-- First sample record for the batch-unravel witness: two int32
elements `[1, 1]`-ish bytes, shape `[2]`. -/
def pA : NdArrayProto := ⟨"numpy", [], .dense ⟨List.replicate 8 1, [2], ⟨"<i4", 4⟩⟩⟩

/-- Second sample record for the batch-unravel witness. -/
def pB : NdArrayProto := ⟨"numpy", [], .dense ⟨List.replicate 8 2, [2], ⟨"<i4", 4⟩⟩⟩

/-- Witness for claim C2's theorem on a concrete two-record batch. -/
theorem unravel_dense_batch_example :
    (0 : Nat) < listProd [2] ∧
    (unravel [pA, pB] =
      .ok (.np ⟨⟨"<i4", 4⟩, [2, 2],
        catBufs ([pA, pB].map (fun p => p.denseArm.buffer))⟩) ∧
    ∀ k (hk : k < ([pA, pB] : List NdArrayProto).length),
      npSlice0 (⟨⟨"<i4", 4⟩, [2, 2],
          catBufs ([pA, pB].map (fun p => p.denseArm.buffer))⟩ : NpArray) k =
        ⟨⟨"<i4", 4⟩, [2], (([pA, pB] : List NdArrayProto).get ⟨k, hk⟩).denseArm.buffer⟩ ∧
      getDenseArray (([pA, pB] : List NdArrayProto).get ⟨k, hk⟩).denseArm =
        .ok (some ⟨⟨"<i4", 4⟩, [2],
          (([pA, pB] : List NdArrayProto).get ⟨k, hk⟩).denseArm.buffer⟩)) :=
  ⟨by decide,
   unravel_dense_batch pA [pB] ⟨"<i4", 4⟩ [2] rfl (by decide) (by decide) (by decide)
    (by
      intro p hp
      simp only [List.mem_cons, List.not_mem_nil, or_false] at hp
      rcases hp with h | h <;> subst h <;> exact ⟨rfl, rfl, by decide⟩)⟩

/-- A dense numpy record whose per-record shape `[0]` has zero volume,
exactly as produced by encoding the zero-element int32 array `vZero`
(i.e. `np.zeros((0,), dtype=np.int32)`). -/
def pZ : NdArrayProto := emptyProto.setValue (.np vZero)

/-- Counterexample to claim C2 as stated: a non-empty batch of dense
records sharing dtype `<i4` and per-record shape `[0]` does not unravel
into an array of shape `[N, 0]` — the `[-1]`-reshape cannot infer the
batch axis when the per-record element count is zero, and the code
raises instead of yielding an array. -/
theorem unravel_dense_batch_cex :
    pZ.denseArm.shape = [0] ∧
    unravel [pZ] = .error "reshape: cannot reshape array with inferred dimension" ∧
    (unravel [pZ]).isOk = false :=
  ⟨rfl, rfl, rfl⟩

/-- Claim C3 (code bug): batch-unraveling the single scipy record
`rC3` — a 1×3 matrix with nonzeros `(0,1)=5` and `(0,2)=7` — produces a
CSR matrix whose column coordinates are `[0, 2]` instead of `[1, 2]`:
`reshape(2, -1)[1, :]` reads the second half of the interleaved
`(nnz, 2)` index buffer, which holds `(row₁, col₁)`, not the column
coordinates.  The batched matrix has entry 5 at `(0, 0)` and 0 at
`(0, 1)`, while the single-record decode of the same record (and the
claim) puts 5 at `(0, 1)` and nothing at `(0, 0)`. -/
theorem unravel_scipy_misplaces_columns :
    unravel [rC3] = .ok (.scipy csrC3) ∧
    rC3.value = .ok (.scipy cooC3) ∧
    cooEntry csrC3.rows csrC3.cols csrC3.data 0 1 = 0 ∧
    cooEntry cooC3.rows cooC3.cols cooC3.data 0 1 = 5 ∧
    cooEntry csrC3.rows csrC3.cols csrC3.data 0 0 = 5 ∧
    cooEntry cooC3.rows cooC3.cols cooC3.data 0 0 = 0 :=
  ⟨rfl, rfl, by decide, by decide, by decide, by decide⟩

end JinaNd
